import Mathlib

/-!
# Verification of the Automation Instance Lifecycle & Multi-Strategy Screen Capture subsystem

Shallow embedding of the core logic of `office-server/server.py` and
`browser-server/server.py`:

* the multi-strategy screenshot chain `capture_window_screenshot` (mss →
  pyautogui → PrintWindow/BitBlt),
* the window locator `find_window_by_class_or_title`,
* the per-kind application-handle registry (`office_apps`,
  `get_or_create_word` / `_excel` / `_powerpoint`, `word_launch`, `word_close`),
* the browser foreground helper `bring_window_to_front` and the
  self-rasterizing screenshot endpoint `browser_screenshot`, and
* the browser teardown `browser_close`.

External effects (Win32 calls, COM dispatch, mss/pyautogui/Selenium) are
modelled as explicit environment records: each fallible call is an `Option`
or `Except` valued field (`none` / `.error` = the call raised an exception),
each total call is a plain function field.  Python dictionaries holding one
handle per application kind become a structure with one `Option` slot per
kind.
-/

namespace OpenCode

/-- Encoded image bytes (Python `bytes`). -/
abbrev Bytes := List Nat

/-- The fixed eight-byte PNG file signature.  `PIL.Image.save(buffer, format='PNG')`
always begins its output with these bytes. -/
def pngSignature : Bytes := [137, 80, 78, 71, 13, 10, 26, 10]

/-- A decoded raster image (a `PIL.Image`): pixel dimensions plus raw pixel data. -/
structure Image where
  width : Nat
  height : Nat
  data : Bytes
deriving DecidableEq

/-- Model of `img.save(buffer, format='PNG')`: the PNG container is the
signature followed by the encoded dimensions and the pixel payload.  The
output is never empty because the signature is always written first. -/
def pngEncode (img : Image) : Bytes :=
  pngSignature ++
    [img.width % 256, img.width / 256 % 256, img.height % 256, img.height / 256 % 256] ++
    img.data

/-- A window rectangle as returned by `win32gui.GetWindowRect`:
`(left, top, right, bottom)` screen coordinates. -/
structure Rect where
  left : Int
  top : Int
  right : Int
  bottom : Int
deriving DecidableEq

/-- Definition `width = right - left` (line 124 of `office-server/server.py`). -/
def Rect.width (r : Rect) : Int := r.right - r.left

/-- Definition `height = bottom - top` (line 125 of `office-server/server.py`). -/
def Rect.height (r : Rect) : Int := r.bottom - r.top

/-- A display monitor as reported by `mss` (`sct.monitors[1]`, the primary). -/
structure Monitor where
  left : Int
  top : Int
  width : Int
  height : Int
deriving DecidableEq

/-- A capture region handed to `sct.grab` / `pyautogui.screenshot`. -/
structure Region where
  left : Int
  top : Int
  width : Int
  height : Int
deriving DecidableEq

/-- The in-bounds test of strategy 1 (line 166):
`left >= 0 and top >= 0 and right <= primary["width"] and bottom <= primary["height"]`. -/
def mssInBounds (r : Rect) (primary : Monitor) : Bool :=
  decide (0 ≤ r.left) && decide (0 ≤ r.top) &&
    decide (r.right ≤ primary.width) && decide (r.bottom ≤ primary.height)

/-- The region strategy 1 grabs (lines 164-176): the window rectangle when it
lies within the primary monitor, the whole primary monitor otherwise. -/
def mssRegion (r : Rect) (primary : Monitor) : Region :=
  if mssInBounds r primary then
    ⟨r.left, r.top, r.width, r.height⟩
  else
    ⟨primary.left, primary.top, primary.width, primary.height⟩

/-- Outcomes of the external capture facilities for one
`capture_window_screenshot` call.  `none` / `false` model a raised
exception at the corresponding call site. -/
structure CaptureEnv where
  /-- Whether `import mss` succeeds (lines 158, 190: `ImportError` is caught). -/
  mssAvailable : Bool
  /-- Outcome of `sct.grab(monitor)` and the subsequent `Image.frombytes` conversion:
  `none` = an exception (caught at line 192), `some raw` = the BGRA pixel
  data of the grabbed region. -/
  mssGrab : Region → Option Bytes
  /-- Result of `pyautogui.size()` (line 200). -/
  screenWidth : Int
  screenHeight : Int
  /-- Outcome of `pyautogui.screenshot(region=...)`: `none` = an exception (caught at
  line 210), `some img` = the returned `PIL` image. -/
  pyautoguiShot : Region → Option Image
  /-- All device-context operations of the last-resort strategy outside the
  small `PrintWindow` try (lines 214-245): `false` = some call raised, which
  propagates to the outer handler at line 247. -/
  dcOk : Bool
  /-- Outcome of `ctypes.windll.user32.PrintWindow(...)` (line 223): `none` = raised
  (caught at line 226, falls back to `BitBlt`), `some b` = returned with
  truthiness `b`. -/
  printWindowResult : Option Bool
  /-- Bitmap bits read back when `PrintWindow` painted the window. -/
  printWindowBits : Bytes
  /-- Bitmap bits read back after the `BitBlt` fallback. -/
  bitBltBits : Bytes

/-- Strategy 1 (lines 156-195): compositor-aware capture via `mss`.  Any
exception (missing module, grab failure) yields `none`; success PNG-encodes
an image whose dimensions are the grabbed region's. -/
def tryMss (r : Rect) (primary : Monitor) (env : CaptureEnv) : Option Bytes :=
  if env.mssAvailable then
    match env.mssGrab (mssRegion r primary) with
    | some raw =>
        some (pngEncode ⟨(mssRegion r primary).width.toNat, (mssRegion r primary).height.toNat, raw⟩)
    | none => none
  else none

/-- The clamped region of strategy 2 (lines 200-204):
`cap_left = max(0, left)`, `cap_top = max(0, top)`,
`cap_width = min(width, screen_width - cap_left)`,
`cap_height = min(height, screen_height - cap_top)`. -/
def pyautoguiRegion (r : Rect) (env : CaptureEnv) : Region :=
  let capLeft := max 0 r.left
  let capTop := max 0 r.top
  ⟨capLeft, capTop, min r.width (env.screenWidth - capLeft),
    min r.height (env.screenHeight - capTop)⟩

/-- Strategy 2 (lines 197-211): the `pyautogui` fallback over the clamped
region.  Any exception yields `none`; success PNG-encodes the screenshot. -/
def tryPyautogui (r : Rect) (env : CaptureEnv) : Option Bytes :=
  match env.pyautoguiShot (pyautoguiRegion r env) with
  | some img => some (pngEncode img)
  | none => none

/-- Strategy 3 (lines 213-245): render the window into a memory device
context via `PrintWindow`; if `PrintWindow` raises or returns a failure
code, fall back to a raw `BitBlt`.  An exception in the unguarded
device-context operations propagates to the outer handler (line 247),
making the whole capture fail (`none`).  The bitmap created at line 219 has
the window rectangle's dimensions. -/
def tryPrintWindow (r : Rect) (env : CaptureEnv) : Option Bytes :=
  if env.dcOk then
    let bits :=
      match env.printWindowResult with
      | some true => env.printWindowBits
      | some false => env.bitBltBits
      | none => env.bitBltBits
    some (pngEncode ⟨r.width.toNat, r.height.toNat, bits⟩)
  else none

/-- The three capture strategies, in chain order. -/
inductive Strategy where
  | mss
  | pyautogui
  | printWindow
deriving DecidableEq

/-- The strategy chain of `capture_window_screenshot` (lines 156-245): try
`mss`, on failure try `pyautogui`, on failure try `PrintWindow`/`BitBlt`;
stop at the first success.  Returns the encoded bytes (or `none` when every
strategy failed) together with the list of strategies attempted. -/
def captureChain (r : Rect) (primary : Monitor) (env : CaptureEnv) :
    Option Bytes × List Strategy :=
  match tryMss r primary env with
  | some bs => (some bs, [Strategy.mss])
  | none =>
    match tryPyautogui r env with
    | some bs => (some bs, [Strategy.mss, Strategy.pyautogui])
    | none =>
      match tryPrintWindow r env with
      | some bs => (some bs, [Strategy.mss, Strategy.pyautogui, Strategy.printWindow])
      | none => (none, [Strategy.mss, Strategy.pyautogui, Strategy.printWindow])

/-- Window-rectangle snapshots taken during the positioning prologue of
`capture_window_screenshot` (restore → move → maximize → foreground), plus
whether the foreground call raised. -/
structure PositionEnv where
  /-- Result of `GetWindowRect` after the restore (line 123). -/
  rectAfterRestore : Rect
  /-- Result of `GetWindowRect` after the maximize (line 136). -/
  rectAfterMaximize : Rect
  /-- Result of `GetWindowRect` after the foreground attempt (line 152); this is the
  rectangle handed to the strategy chain. -/
  rectFinal : Rect
  /-- Whether `win32gui.SetForegroundWindow` raised (lines 145-148: the
  exception is swallowed by `except: pass`, so it cannot influence the
  result). -/
  setForegroundThrows : Bool
  /-- Value of `sct.monitors[1]`. -/
  primary : Monitor

/-- Model of `capture_window_screenshot` (lines 112-251): after positioning, bail out
with `None` when the post-maximize rectangle is degenerate (line 140),
otherwise run the strategy chain on the final rectangle.  The
`setForegroundThrows` flag is deliberately unused: the `try/except: pass`
at lines 145-148 swallows the exception, so a foreground failure never
reaches the capture logic. -/
def capture_window_screenshot (pos : PositionEnv) (env : CaptureEnv) :
    Option Bytes × List Strategy :=
  if pos.rectAfterMaximize.width ≤ 0 ∨ pos.rectAfterMaximize.height ≤ 0 then
    (none, [])
  else
    captureChain pos.rectFinal pos.primary env

/-- The window position/size requested by the move step (lines 127-128):
`SetWindowPos(hwnd, 0, 50, 50, min(width, 1600), min(height, 900), 0x0040)`. -/
structure WindowPos where
  x : Int
  y : Int
  w : Int
  h : Int
deriving DecidableEq

/-- The move step of the positioning prologue (lines 121-128): move the
window whose current rectangle is `r` to the fixed anchor `(50, 50)` on the
primary monitor, with its size clamped to at most `1600 × 900`. -/
def moveToPrimary (r : Rect) : WindowPos :=
  ⟨50, 50, min r.width 1600, min r.height 900⟩

/-- The Win32 window-management calls the model tracks. -/
inductive WinCall where
  | showWindowRestore
  | getWindowRect
  | setWindowPos
  | showWindowMaximize
  | setForegroundWindow
  | attachThreadInput
  | detachThreadInput
  | showWindowShow
  | bringWindowToTop
deriving DecidableEq

/-- The ordered window-management calls issued by the positioning prologue
of `capture_window_screenshot` (lines 117-152): restore, read rect, move,
maximize, read rect, plain `SetForegroundWindow`, read rect.  No thread
attachment is ever performed on this path. -/
def officePositionCalls : List WinCall :=
  [WinCall.showWindowRestore, WinCall.getWindowRect, WinCall.setWindowPos,
   WinCall.showWindowMaximize, WinCall.getWindowRect,
   WinCall.setForegroundWindow, WinCall.getWindowRect]

/-- A top-level OS window as seen by `EnumWindows`. -/
structure Window where
  hwnd : Nat
  visible : Bool
  title : List Char
  className : List Char
deriving DecidableEq

/-- Substring containment on character lists (Python's `needle in hay`). -/
def listContains (needle hay : List Char) : Bool :=
  match hay with
  | [] => needle.isEmpty
  | _ :: t => needle.isPrefixOf hay || listContains needle t

/-- Python's `needle.lower() in hay.lower()`: case-insensitive substring
containment. -/
def ciContains (needle hay : List Char) : Bool :=
  listContains (needle.map Char.toLower) (hay.map Char.toLower)

/-- The test of the `enum_callback` at lines 263-271 of
`office-server/server.py`: a visible window is collected when the supplied
class name is non-empty and occurs (case-insensitively) in the window's
class, or else when the supplied title pattern is present, non-empty and
occurs (case-insensitively) in the window's title. -/
def enumMatches (className : List Char) (titlePattern : Option (List Char)) (w : Window) : Bool :=
  if w.visible then
    if !className.isEmpty && ciContains className w.className then true
    else
      match titlePattern with
      | some p => !p.isEmpty && ciContains p w.title
      | none => false
  else false

/-- The OS state one `find_window_by_class_or_title` call observes. -/
structure WinEnv where
  /-- Result of `win32gui.FindWindow(class_name, None)` (line 256): the exact
  class-name lookup; `0` = no such window. -/
  exactLookup : Nat
  /-- The top-level windows in `EnumWindows` enumeration order. -/
  windows : List Window

/-- Model of `find_window_by_class_or_title` (lines 254-274): exact class lookup
first; when that fails, enumerate all windows, collect the visible ones
matching either pattern, and return the first collected handle
(`result[0] if result else None`). -/
def find_window_by_class_or_title (className : List Char) (titlePattern : Option (List Char))
    (env : WinEnv) : Option Nat :=
  if env.exactLookup ≠ 0 then some env.exactLookup
  else ((env.windows.filter (enumMatches className titlePattern)).head?).map Window.hwnd

/-- The window filter of `bring_window_to_front`'s callback (lines 101-106
of `browser-server/server.py`): visible and title contains the pattern
case-insensitively. -/
def fgMatches (pat : List Char) (w : Window) : Bool :=
  w.visible && ciContains pat w.title

/-- The OS state and failure switches one `bring_window_to_front` call
observes. -/
structure FgEnv where
  /-- Whether `win32gui` imported successfully (`HAS_WIN32`). -/
  hasWin32 : Bool
  /-- The top-level windows in `EnumWindows` enumeration order. -/
  windows : List Window
  /-- Result of `win32gui.IsIconic hwnd`. -/
  isIconic : Nat → Bool
  /-- Thread id of the current foreground window's owner
  (`GetWindowThreadProcessId(GetForegroundWindow())[0]`). -/
  foregroundThread : Nat
  /-- Thread id owning a given window (`GetWindowThreadProcessId(hwnd)[0]`). -/
  targetThread : Nat → Nat
  /-- Whether the restore/show/bring-to-top calls (lines 114-123) raise;
  a raise is caught by the outer handler (line 145) and the function
  returns `False`. -/
  preThrows : Bool
  /-- Whether the privileged escalation block (lines 126-139: the
  `win32process` import, `AttachThreadInput` and the guarded
  `SetForegroundWindow`) raises; a raise is caught at line 140 and the
  plain fallback call is made instead. -/
  escalationThrows : Bool
  /-- Whether the plain fallback `SetForegroundWindow` (line 142) raises;
  a raise is caught by the outer handler and the function returns `False`. -/
  fallbackThrows : Bool

/-- Model of `bring_window_to_front` (lines 96-148 of `browser-server/server.py`):
find the first visible window whose title contains the pattern; restore it
if iconic, show it, bring it to top; then attach the requesting thread's
input context to the target window's thread before `SetForegroundWindow`
when the threads differ, detaching afterwards; on any failure of that
escalation, silently retry with a plain `SetForegroundWindow`.  All
exceptions are caught; the function returns a success flag together with
the trace of window-management calls it performed. -/
def bring_window_to_front (pat : List Char) (env : FgEnv) : Bool × List WinCall :=
  if env.hasWin32 then
    match (env.windows.filter (fgMatches pat)).head? with
    | none => (false, [])
    | some w =>
      let pre : List WinCall :=
        (if env.isIconic w.hwnd then [WinCall.showWindowRestore] else []) ++
          [WinCall.showWindowShow, WinCall.bringWindowToTop]
      if env.preThrows then (false, pre)
      else if env.escalationThrows then
        if env.fallbackThrows then (false, pre ++ [WinCall.setForegroundWindow])
        else (true, pre ++ [WinCall.setForegroundWindow])
      else if env.foregroundThread ≠ env.targetThread w.hwnd then
        (true, pre ++ [WinCall.attachThreadInput, WinCall.setForegroundWindow,
          WinCall.detachThreadInput])
      else (true, pre ++ [WinCall.setForegroundWindow])
  else (false, [])

/-- The automatable Office application kinds (the keys of `office_apps`). -/
inductive Kind where
  | word
  | excel
  | powerpoint
deriving DecidableEq

/-- An opaque COM automation handle. -/
abbrev Handle := Nat

/-- The process-wide registry `office_apps` (lines 39-43): one optional
handle slot per application kind. -/
structure Registry where
  word : Option Handle
  excel : Option Handle
  powerpoint : Option Handle
deriving DecidableEq

/-- Read the slot of a kind. -/
def Registry.get (st : Registry) : Kind → Option Handle
  | Kind.word => st.word
  | Kind.excel => st.excel
  | Kind.powerpoint => st.powerpoint

/-- Overwrite the slot of a kind. -/
def Registry.set (st : Registry) : Kind → Option Handle → Registry
  | Kind.word, v => { st with word := v }
  | Kind.excel, v => { st with excel := v }
  | Kind.powerpoint, v => { st with powerpoint := v }

/-- Model of `get_or_create_word` / `_excel` / `_powerpoint` (lines 49-93), uniform in
the kind: when the slot holds a handle, probe it by reading `.Visible`
(`live`); a successful probe returns the cached handle unchanged.  A failed
probe clears the slot, then a new instance is dispatched
(`win32com.client.Dispatch`, modelled by the `dispatch` outcome): on
success the slot is filled with the fresh handle, on failure the dispatch
exception propagates with the slot left cleared.  The third component
records whether a new construction was attempted. -/
def get_or_create (k : Kind) (st : Registry) (live : Handle → Bool)
    (dispatch : Except String Handle) : Except String Handle × Registry × Bool :=
  match st.get k with
  | some h =>
    if live h then (Except.ok h, st, false)
    else
      match dispatch with
      | Except.ok f => (Except.ok f, (st.set k none).set k (some f), true)
      | Except.error e => (Except.error e, st.set k none, true)
  | none =>
    match dispatch with
    | Except.ok f => (Except.ok f, st.set k (some f), true)
    | Except.error e => (Except.error e, st, true)

/-- The JSON envelope produced by `get_success_response` /
`get_error_response`. -/
structure Response where
  success : Bool
  message : String
  details : Option String
deriving DecidableEq

/-- Model of `get_error_response` (lines 96-101). -/
def get_error_response (message : String) (details : Option String) : Response :=
  ⟨false, message, details⟩

/-- Model of `get_success_response` (lines 104-109), without extra data. -/
def get_success_response (message : String) : Response :=
  ⟨true, message, none⟩

/-- Model of `word_launch` (lines 319-332): acquire the Word handle, then make it
visible and add a document when none exists (`postLaunch`); any exception
— in particular a dispatch failure — is caught and mapped to the typed
`'Failed to launch Word'` error response. -/
def word_launch (st : Registry) (live : Handle → Bool) (dispatch : Except String Handle)
    (postLaunch : Handle → Except String Unit) : Response × Registry :=
  match get_or_create Kind.word st live dispatch with
  | (Except.ok h, st1, _) =>
    match postLaunch h with
    | Except.ok _ => (get_success_response "Word launched successfully", st1)
    | Except.error e => (get_error_response "Failed to launch Word" (some e), st1)
  | (Except.error e, st1, _) => (get_error_response "Failed to launch Word" (some e), st1)

/-- Model of `word_close` (lines 916-933): when no Word handle is held the endpoint
immediately reports success and touches nothing.  Otherwise the documents
are saved when requested (`saveEff`), the application is quit (`quitEff`)
and the slot is cleared; an exception in either step is caught and reported
as the `'Failed to close Word'` error with the slot left as it was (the
`None` assignment at line 929 only runs after a successful `Quit`). -/
def word_close (st : Registry) (save : Bool) (saveEff : Except String Unit)
    (quitEff : Except String Unit) : Response × Registry :=
  match st.get Kind.word with
  | none => (get_success_response "Word closed", st)
  | some _ =>
    match (if save then saveEff else Except.ok ()) with
    | Except.error e => (get_error_response "Failed to close Word" (some e), st)
    | Except.ok _ =>
      match quitEff with
      | Except.error e => (get_error_response "Failed to close Word" (some e), st)
      | Except.ok _ => (get_success_response "Word closed", st.set Kind.word none)

/-- Model of `browser_close` (lines 278-289 of `browser-server/server.py`): a no-op
success when no browser is running; otherwise quit the driver and clear the
global, reporting a caught quit exception with the global left as it was. -/
def browser_close (b : Option Handle) (quitEff : Except String Unit) :
    Response × Option Handle :=
  match b with
  | none => (get_success_response "Browser closed", none)
  | some _ =>
    match quitEff with
    | Except.error e => (get_error_response "Failed to close browser" (some e), b)
    | Except.ok _ => (get_success_response "Browser closed", none)

/-- The page metrics `browser_screenshot` reads via `execute_script`. -/
structure BrowserPage where
  scrollWidth : Nat
  scrollHeight : Nat
deriving DecidableEq

/-- A live Selenium session: the driver-managed window size plus the loaded
page. -/
structure BrowserSession where
  windowWidth : Nat
  windowHeight : Nat
  page : BrowserPage
deriving DecidableEq

/-- Model of `browser.set_window_size(w, h)`. -/
def set_window_size (s : BrowserSession) (w h : Nat) : BrowserSession :=
  { s with windowWidth := w, windowHeight := h }

/-- Model of `browser_screenshot` (lines 326-358 of `browser-server/server.py`):
error when no browser is running; with `full_page` set, resize the window
to `max(scrollWidth, 1920) × max(scrollHeight, 1080)` before rasterizing;
the screenshot (`rasterize`) is taken on the session as it stands after
the resize, and that resized session is the state every later request
sees — nothing restores the previous size. -/
def browser_screenshot (fullPage : Bool) (b : Option BrowserSession)
    (rasterize : BrowserSession → Bytes) : Option Bytes × Option BrowserSession :=
  match b with
  | none => (none, none)
  | some s =>
    let s1 :=
      if fullPage then
        set_window_size s (max s.page.scrollWidth 1920) (max s.page.scrollHeight 1080)
      else s
    (some (rasterize s1), some s1)

/-! ### Concrete sample inputs used to evaluate the theorems -/

/-- A 1280×720 window at the origin, fully inside the primary display. -/
def sampleWindowRect : Rect := ⟨0, 0, 1280, 720⟩

/-- A window rectangle starting at `left = -200`, extending beyond the
primary display. -/
def sampleOffRect : Rect := ⟨-200, 0, 1080, 720⟩

/-- A 1920×1080 primary display at the origin. -/
def samplePrimary : Monitor := ⟨0, 0, 1920, 1080⟩

/-- A capture environment where `mss` is not installed and `pyautogui`
succeeds with a small 8×8 image. -/
def sampleEnvPyautogui : CaptureEnv :=
  ⟨false, fun _ => none, 1920, 1080, fun _ => some ⟨8, 8, [1, 2, 3]⟩,
    true, some true, [], []⟩

/-- A capture environment where `mss` is installed and the grab succeeds
with one byte of pixel data. -/
def sampleEnvMss : CaptureEnv :=
  ⟨true, fun _ => some [5], 1920, 1080, fun _ => none, true, some true, [], []⟩

/-- The empty handle registry (server start-up state, lines 39-43). -/
def emptyRegistry : Registry := ⟨none, none, none⟩

/-- A registry holding only a Word handle. -/
def wordRegistry : Registry := ⟨some 7, none, none⟩

/-- An environment where the exact class lookup succeeds with handle 42. -/
def sampleWinEnvExact : WinEnv := ⟨42, []⟩

/-- An environment where the exact lookup fails and enumeration sees an
invisible matching window followed by a visible window titled `Word`. -/
def sampleWinEnvEnum : WinEnv :=
  ⟨0, [⟨1, false, ['W', 'o', 'r', 'd'], ['y']⟩, ⟨2, true, ['W', 'o', 'r', 'd'], ['y']⟩]⟩

/-- An environment where the exact lookup fails and nothing matches. -/
def sampleWinEnvNone : WinEnv := ⟨0, [⟨3, true, ['z'], ['z']⟩]⟩

/-- A foreground environment with one visible window titled `c`, owned by a
thread different from the foreground thread, with no failures. -/
def sampleFgEnv : FgEnv :=
  ⟨true, [⟨2, true, ['c'], []⟩], fun _ => false, 1, fun _ => 2, false, false, false⟩

/-- A browser session with a 1000×800 window on a 3000×500 page. -/
def sampleSession : BrowserSession := ⟨1000, 800, ⟨3000, 500⟩⟩

/-! ### Helper lemmas -/

/-- A PNG encoding is never the empty byte string: the signature is always
written first. -/
theorem pngEncode_ne_nil (img : Image) : pngEncode img ≠ [] := by
  simp [pngEncode, pngSignature]

/-- Every successful `mss` strategy result is a PNG encoding. -/
theorem tryMss_some_eq {r : Rect} {p : Monitor} {env : CaptureEnv} {bs : Bytes}
    (h : tryMss r p env = some bs) : ∃ img : Image, bs = pngEncode img := by
  unfold tryMss at h
  by_cases ha : env.mssAvailable = true
  · rw [if_pos ha] at h
    cases hg : env.mssGrab (mssRegion r p) <;> rw [hg] at h
    · exact absurd h (by simp)
    · exact ⟨_, (Option.some.inj h).symm⟩
  · rw [if_neg ha] at h
    exact absurd h (by simp)

/-- Every successful `pyautogui` strategy result is a PNG encoding. -/
theorem tryPyautogui_some_eq {r : Rect} {env : CaptureEnv} {bs : Bytes}
    (h : tryPyautogui r env = some bs) : ∃ img : Image, bs = pngEncode img := by
  unfold tryPyautogui at h
  cases hg : env.pyautoguiShot (pyautoguiRegion r env) <;> rw [hg] at h
  · exact absurd h (by simp)
  · exact ⟨_, (Option.some.inj h).symm⟩

/-- Every successful `PrintWindow`/`BitBlt` strategy result is a PNG
encoding. -/
theorem tryPrintWindow_some_eq {r : Rect} {env : CaptureEnv} {bs : Bytes}
    (h : tryPrintWindow r env = some bs) : ∃ img : Image, bs = pngEncode img := by
  unfold tryPrintWindow at h
  by_cases hd : env.dcOk = true
  · rw [if_pos hd] at h
    exact ⟨_, (Option.some.inj h).symm⟩
  · rw [if_neg hd] at h
    exact absurd h (by simp)

/-- Reading back the slot just written. -/
theorem Registry.get_set_same (st : Registry) (k : Kind) (v : Option Handle) :
    (st.set k v).get k = v := by
  cases k <;> rfl

/-- Writing one kind's slot leaves every other kind's slot unchanged. -/
theorem Registry.get_set_other (st : Registry) (k k' : Kind) (v : Option Handle)
    (h : k' ≠ k) : (st.set k v).get k' = st.get k' := by
  cases k <;> cases k' <;> first | rfl | exact absurd rfl h

/-- On a successful acquire, the returned handle is exactly what the
registry slot holds afterwards. -/
theorem get_or_create_ok_slot {k : Kind} {st : Registry} {live : Handle → Bool}
    {d : Except String Handle} {res : Handle} {st1 : Registry} {b : Bool}
    (h : get_or_create k st live d = (Except.ok res, st1, b)) :
    st1.get k = some res := by
  unfold get_or_create at h
  split at h
  · next h0 heq =>
    split at h
    · injection h with hA hB
      injection hB with hB1 hB2
      injection hA with hA1
      subst hA1
      subst hB1
      exact heq
    · split at h
      · next f =>
        injection h with hA hB
        injection hB with hB1 hB2
        injection hA with hA1
        subst hA1
        subst hB1
        exact Registry.get_set_same _ _ _
      · exact absurd h (by simp)
  · next heq =>
    split at h
    · next f =>
      injection h with hA hB
      injection hB with hB1 hB2
      injection hA with hA1
      subst hA1
      subst hB1
      exact Registry.get_set_same _ _ _
    · exact absurd h (by simp)

/-- Lemma: `acquire` for one kind never touches another kind's slot. -/
theorem get_or_create_other_slot (k k' : Kind) (st : Registry) (live : Handle → Bool)
    (d : Except String Handle) (hne : k' ≠ k) :
    (get_or_create k st live d).2.1.get k' = st.get k' := by
  unfold get_or_create
  split
  · split
    · rfl
    · split
      · exact (Registry.get_set_other (st.set k none) k k' _ hne).trans
          (Registry.get_set_other st k k' none hne)
      · exact Registry.get_set_other st k k' none hne
  · split
    · exact Registry.get_set_other st k k' _ hne
    · rfl

/-- Lemma: `word_close` never touches a slot other than the word slot. -/
theorem word_close_other_slot (k' : Kind) (st : Registry) (save : Bool)
    (sE qE : Except String Unit) (hne : k' ≠ Kind.word) :
    (word_close st save sE qE).2.get k' = st.get k' := by
  unfold word_close
  split
  · rfl
  · split
    · rfl
    · split
      · rfl
      · exact Registry.get_set_other st Kind.word k' none hne

/-- The first element of a filtered list is the first element satisfying
the predicate. -/
theorem filter_head_eq_find {α : Type} (p : α → Bool) (l : List α) :
    (l.filter p).head? = l.find? p := by
  induction l with
  | nil => rfl
  | cons a t ih =>
    by_cases hp : p a <;> simp [List.filter_cons, List.find?_cons, hp, ih]

/-! ### Claim theorems -/

/-- Claim C1: for every call to the capture strategy chain, a failure
(raised exception) of one strategy never escapes without the next strategy
being attempted; the chain stops at the first strategy producing non-empty
bytes; a successful capture never returns a zero-length buffer; and the
capture-failed result (`none`) arises exactly when every strategy has
failed — never as an empty success. -/
theorem capture_chain_spec (r : Rect) (p : Monitor) (env : CaptureEnv) :
    ((captureChain r p env).1 = none ↔
      tryMss r p env = none ∧ tryPyautogui r env = none ∧ tryPrintWindow r env = none) ∧
    ((captureChain r p env).1 = none →
      (captureChain r p env).2 = [Strategy.mss, Strategy.pyautogui, Strategy.printWindow]) ∧
    (∀ bs, (captureChain r p env).1 = some bs → bs ≠ []) ∧
    (tryMss r p env = none → Strategy.pyautogui ∈ (captureChain r p env).2) ∧
    (tryMss r p env = none → tryPyautogui r env = none →
      Strategy.printWindow ∈ (captureChain r p env).2) ∧
    (∀ bs, tryMss r p env = some bs →
      captureChain r p env = (some bs, [Strategy.mss])) ∧
    (tryMss r p env = none → ∀ bs, tryPyautogui r env = some bs →
      captureChain r p env = (some bs, [Strategy.mss, Strategy.pyautogui])) := by
  have hne : ∀ bs, (captureChain r p env).1 = some bs → bs ≠ [] := by
    intro bs hbs
    unfold captureChain at hbs
    cases h1 : tryMss r p env <;> rw [h1] at hbs
    · cases h2 : tryPyautogui r env <;> rw [h2] at hbs
      · cases h3 : tryPrintWindow r env <;> rw [h3] at hbs
        · exact absurd hbs (by simp)
        · obtain ⟨img, hi⟩ := tryPrintWindow_some_eq h3
          cases Option.some.inj hbs
          exact hi ▸ pngEncode_ne_nil img
      · obtain ⟨img, hi⟩ := tryPyautogui_some_eq h2
        cases Option.some.inj hbs
        exact hi ▸ pngEncode_ne_nil img
    · obtain ⟨img, hi⟩ := tryMss_some_eq h1
      cases Option.some.inj hbs
      exact hi ▸ pngEncode_ne_nil img
  cases h1 : tryMss r p env with
  | some bs1 =>
    refine ⟨?_, ?_, hne, ?_, ?_, ?_, ?_⟩ <;>
      simp [captureChain, h1]
  | none =>
    cases h2 : tryPyautogui r env with
    | some bs2 =>
      refine ⟨?_, ?_, hne, ?_, ?_, ?_, ?_⟩ <;>
        simp [captureChain, h1, h2]
    | none =>
      cases h3 : tryPrintWindow r env with
      | some bs3 =>
        refine ⟨?_, ?_, hne, ?_, ?_, ?_, ?_⟩ <;>
          simp [captureChain, h1, h2, h3]
      | none =>
        refine ⟨?_, ?_, hne, ?_, ?_, ?_, ?_⟩ <;>
          simp [captureChain, h1, h2, h3]

/-- Claim C1 witness: with `mss` missing and `pyautogui` succeeding, the
chain attempts `mss` then stops at `pyautogui` with the PNG bytes of its
screenshot. -/
theorem capture_chain_spec_witness :
    captureChain sampleWindowRect samplePrimary sampleEnvPyautogui =
      (some (pngEncode ⟨8, 8, [1, 2, 3]⟩), [Strategy.mss, Strategy.pyautogui]) :=
  (capture_chain_spec sampleWindowRect samplePrimary sampleEnvPyautogui).2.2.2.2.2.2
    rfl _ rfl

/-- Claim C2: when the window rectangle read after positioning lies fully
within the primary display (`left ≥ 0`, `top ≥ 0`, `right`/`bottom` within
the display's width/height), strategy 1 grabs exactly that rectangle and,
on a successful grab, returns a PNG-encoded image whose dimensions are the
rectangle's width and height; when the rectangle extends beyond the primary
display (for example `left = -200 < 0`), strategy 1 grabs the entire
primary display instead. -/
theorem mss_region_spec (r : Rect) (p : Monitor) (env : CaptureEnv) (raw : Bytes) :
    (mssInBounds r p = true →
      mssRegion r p = ⟨r.left, r.top, r.width, r.height⟩ ∧
      (env.mssAvailable = true → env.mssGrab (mssRegion r p) = some raw →
        tryMss r p env = some (pngEncode ⟨r.width.toNat, r.height.toNat, raw⟩) ∧
        (pngEncode ⟨r.width.toNat, r.height.toNat, raw⟩).take 8 = pngSignature)) ∧
    (mssInBounds r p = false →
      mssRegion r p = ⟨p.left, p.top, p.width, p.height⟩) ∧
    (r.left < 0 → mssInBounds r p = false) := by
  refine ⟨fun hin => ⟨by simp [mssRegion, hin], fun hav hg => ⟨?_, ?_⟩⟩,
    fun hout => by simp [mssRegion, hout], fun hneg => ?_⟩
  · unfold tryMss
    rw [if_pos hav, hg]
    have : mssRegion r p = ⟨r.left, r.top, r.width, r.height⟩ := by
      simp [mssRegion, hin]
    rw [this]
  · show (pngSignature ++ _).take 8 = pngSignature
    rw [List.take_append_of_le_length (by simp [pngSignature])]
    simp [pngSignature]
  · have : ¬ (0 ≤ r.left) := by omega
    simp [mssInBounds, this]

/-- Claim C2 witness: a 1280×720 window at the origin is grabbed exactly
and encoded as a 1280×720 PNG; a window at `left = -200` makes strategy 1
grab the whole 1920×1080 primary display. -/
theorem mss_region_spec_witness :
    tryMss sampleWindowRect samplePrimary sampleEnvMss =
      some (pngEncode ⟨1280, 720, [5]⟩) ∧
    mssRegion sampleOffRect samplePrimary = ⟨0, 0, 1920, 1080⟩ :=
  ⟨(((mss_region_spec sampleWindowRect samplePrimary sampleEnvMss [5]).1
      (by decide)).2 rfl rfl).1,
    (mss_region_spec sampleOffRect samplePrimary sampleEnvMss [5]).2.1 (by decide)⟩

/-- Claim C3: when a first `acquire(kind)` returns a handle and no external
kill intervenes (the liveness probe keeps succeeding on it), a second
`acquire(kind)` returns the very same cached handle, leaves the registry
unchanged, and performs no new construction. -/
theorem acquire_idempotent (k : Kind) (st : Registry) (live : Handle → Bool)
    (d1 d2 : Except String Handle) (h : Handle) (st1 : Registry) (b1 : Bool)
    (hfirst : get_or_create k st live d1 = (Except.ok h, st1, b1))
    (hlive : live h = true) :
    get_or_create k st1 live d2 = (Except.ok h, st1, false) := by
  have hslot : st1.get k = some h := get_or_create_ok_slot hfirst
  unfold get_or_create
  rw [hslot]
  simp [hlive]

/-- Claim C3 witness: after acquiring handle 7 into the empty registry, a
second acquire returns 7 from the cache without constructing (the dispatch
outcome of the second call is never consulted). -/
theorem acquire_idempotent_witness :
    get_or_create Kind.word wordRegistry (fun _ => true) (Except.error "boom") =
      (Except.ok 7, wordRegistry, false) :=
  acquire_idempotent Kind.word emptyRegistry (fun _ => true) (Except.ok 7)
    (Except.error "boom") 7 wordRegistry true rfl rfl

/-- Claim C4: when the cached handle's liveness probe fails, `acquire`
discards the stale handle and constructs a fresh one; the probe failure is
never surfaced (a successful construction yields a plain success carrying
the fresh handle); only a failure of the new construction itself
propagates, and the launch endpoint surfaces it as the typed
`'Failed to launch Word'` error. -/
theorem stale_probe_recovery (k : Kind) (st : Registry) (h f : Handle) (e : String)
    (live : Handle → Bool) (hc : st.get k = some h) (hd : live h = false) :
    get_or_create k st live (Except.ok f) =
      (Except.ok f, (st.set k none).set k (some f), true) ∧
    get_or_create k st live (Except.error e) =
      (Except.error e, st.set k none, true) ∧
    (∀ (st2 : Registry) (h2 : Handle) (post : Handle → Except String Unit),
      st2.get Kind.word = some h2 → live h2 = false →
      word_launch st2 live (Except.error e) post =
        (get_error_response "Failed to launch Word" (some e), st2.set Kind.word none)) := by
  refine ⟨?_, ?_, ?_⟩
  · unfold get_or_create
    rw [hc]
    simp [hd]
  · unfold get_or_create
    rw [hc]
    simp [hd]
  · intro st2 h2 post hc2 hd2
    unfold word_launch get_or_create
    rw [hc2]
    simp [hd2]

/-- Claim C4 witness: with a dead cached handle 7, acquiring with a
successful dispatch returns fresh handle 9 and replaces the slot; with a
failing dispatch, `word_launch` reports the typed launch-failed error with
the stale slot cleared. -/
theorem stale_probe_recovery_witness :
    get_or_create Kind.word wordRegistry (fun _ => false) (Except.ok 9) =
      (Except.ok 9, (⟨some 9, none, none⟩ : Registry), true) ∧
    word_launch wordRegistry (fun _ => false) (Except.error "x") (fun _ => Except.ok ()) =
      (get_error_response "Failed to launch Word" (some "x"),
        (⟨none, none, none⟩ : Registry)) :=
  ⟨(stale_probe_recovery Kind.word wordRegistry 7 9 "x" (fun _ => false) rfl rfl).1,
    (stale_probe_recovery Kind.word wordRegistry 7 9 "x" (fun _ => false) rfl rfl).2.2
      wordRegistry 7 (fun _ => Except.ok ()) rfl rfl⟩

/-- Claim C5: the process-wide registry keeps one slot per kind; `acquire`
mutates only its own kind's slot and, on success, leaves that slot holding
exactly the returned handle; `release` (word_close) mutates only the word
slot, and a successful release quits the application and clears the slot,
so a subsequent acquire performs a new construction. -/
theorem registry_slot_discipline (k k' : Kind) (st : Registry) (live : Handle → Bool)
    (d : Except String Handle) (f h : Handle) (save : Bool)
    (sE qE : Except String Unit) :
    (k' ≠ k → (get_or_create k st live d).2.1.get k' = st.get k') ∧
    (∀ res st1 b, get_or_create k st live d = (Except.ok res, st1, b) →
      st1.get k = some res) ∧
    (k' ≠ Kind.word → (word_close st save sE qE).2.get k' = st.get k') ∧
    (st.get Kind.word = some h → (if save then sE else Except.ok ()) = Except.ok () →
      qE = Except.ok () →
      word_close st save sE qE =
        (get_success_response "Word closed", st.set Kind.word none) ∧
      (st.set Kind.word none).get Kind.word = none) ∧
    (get_or_create Kind.word (st.set Kind.word none) live (Except.ok f) =
      (Except.ok f, (st.set Kind.word none).set Kind.word (some f), true)) := by
  refine ⟨fun hne => get_or_create_other_slot k k' st live d hne,
    fun res st1 b hh => get_or_create_ok_slot hh,
    fun hne => word_close_other_slot k' st save sE qE hne, ?_, ?_⟩
  · intro hc hs hq
    refine ⟨?_, Registry.get_set_same st Kind.word none⟩
    unfold word_close
    rw [hc, hs, hq]
  · unfold get_or_create
    rw [Registry.get_set_same st Kind.word none]

/-- Claim C5 witness: acquiring Word leaves the Excel slot untouched;
closing Word from a registry holding handle 7 succeeds and empties the
registry; re-acquiring on the cleared slot constructs fresh handle 5. -/
theorem registry_slot_discipline_witness :
    (get_or_create Kind.word wordRegistry (fun _ => true) (Except.ok 9)).2.1.get Kind.excel =
      none ∧
    word_close wordRegistry false (Except.ok ()) (Except.ok ()) =
      (get_success_response "Word closed", emptyRegistry) ∧
    get_or_create Kind.word emptyRegistry (fun _ => true) (Except.ok 5) =
      (Except.ok 5, (⟨some 5, none, none⟩ : Registry), true) :=
  ⟨(registry_slot_discipline Kind.word Kind.excel wordRegistry (fun _ => true)
      (Except.ok 9) 5 7 false (Except.ok ()) (Except.ok ())).1 (by decide),
    ((registry_slot_discipline Kind.word Kind.excel wordRegistry (fun _ => true)
      (Except.ok 9) 5 7 false (Except.ok ()) (Except.ok ())).2.2.2.1 rfl rfl rfl).1,
    (registry_slot_discipline Kind.word Kind.excel wordRegistry (fun _ => true)
      (Except.ok 9) 5 7 false (Except.ok ()) (Except.ok ())).2.2.2.2⟩

/-- Claim C6: the locator first performs the exact class-name OS lookup —
when that succeeds the enumeration is irrelevant and its handle is returned
— and only on failure enumerates the visible top-level windows, matching
class name or title by case-insensitive substring, returning the first
match in enumeration order; when nothing matches it returns not-found
(`none`) rather than throwing. -/
theorem locate_spec (cn : List Char) (tp : Option (List Char)) (env : WinEnv) :
    (env.exactLookup ≠ 0 →
      find_window_by_class_or_title cn tp env = some env.exactLookup ∧
      ∀ ws : List Window,
        find_window_by_class_or_title cn tp ⟨env.exactLookup, ws⟩ =
          some env.exactLookup) ∧
    (env.exactLookup = 0 →
      find_window_by_class_or_title cn tp env =
        (env.windows.find? (enumMatches cn tp)).map Window.hwnd) ∧
    (env.exactLookup = 0 → (∀ w ∈ env.windows, enumMatches cn tp w = false) →
      find_window_by_class_or_title cn tp env = none) := by
  refine ⟨fun hx => ⟨?_, fun ws => ?_⟩, fun hz => ?_, fun hz hall => ?_⟩
  · simp [find_window_by_class_or_title, hx]
  · simp [find_window_by_class_or_title, hx]
  · simp [find_window_by_class_or_title, hz, filter_head_eq_find]
  · have : env.windows.find? (enumMatches cn tp) = none := by
      rw [List.find?_eq_none]
      intro w hw
      simp [hall w hw]
    simp [find_window_by_class_or_title, hz, filter_head_eq_find, this]

/-- Claim C6 witness: with an exact hit the locator returns handle 42
without enumerating; with the exact lookup failing it skips an invisible
matching window and returns the first visible window whose title contains
the pattern; with nothing matching it returns `none`. -/
theorem locate_spec_witness :
    find_window_by_class_or_title ['x'] (some ['w', 'o']) sampleWinEnvExact = some 42 ∧
    find_window_by_class_or_title ['x'] (some ['w', 'o']) sampleWinEnvEnum = some 2 ∧
    find_window_by_class_or_title ['x'] (some ['w', 'o']) sampleWinEnvNone = none :=
  ⟨((locate_spec ['x'] (some ['w', 'o']) sampleWinEnvExact).1 (by decide)).1,
    ((locate_spec ['x'] (some ['w', 'o']) sampleWinEnvEnum).2.1 rfl).trans (by decide),
    (locate_spec ['x'] (some ['w', 'o']) sampleWinEnvNone).2.2 rfl (by decide)⟩

/-- Claim C7 counterexample: the move step does not preserve the size of a
1920×1080 window — the requested size is clamped to 1600×900
(`SetWindowPos(hwnd, 0, 50, 50, min(width, 1600), min(height, 900), ...)`),
so the claim "the window's width and height are preserved unchanged by the
move" is false. -/
theorem move_step_resizes_large_window :
    ¬ ((moveToPrimary ⟨0, 0, 1920, 1080⟩).w = (Rect.mk 0 0 1920 1080).width ∧
       (moveToPrimary ⟨0, 0, 1920, 1080⟩).h = (Rect.mk 0 0 1920 1080).height) := by
  decide

/-- Claim C7 (amended): the move step places the window at the fixed
anchor (50, 50) on the primary display with its size clamped to at most
1600×900; the width and height are preserved exactly when they are at most
1600 and 900 respectively. -/
theorem move_step_anchor_clamped (r : Rect) :
    moveToPrimary r = ⟨50, 50, min r.width 1600, min r.height 900⟩ ∧
    (r.width ≤ 1600 → r.height ≤ 900 →
      (moveToPrimary r).w = r.width ∧ (moveToPrimary r).h = r.height) := by
  refine ⟨rfl, fun h1 h2 => ⟨?_, ?_⟩⟩
  · simp [moveToPrimary, min_eq_left h1]
  · simp [moveToPrimary, min_eq_left h2]

/-- Claim C7 (amended) witness: an 800×600 window is moved to (50, 50)
with its size preserved. -/
theorem move_step_anchor_clamped_witness :
    (moveToPrimary ⟨0, 0, 800, 600⟩).w = (Rect.mk 0 0 800 600).width ∧
    (moveToPrimary ⟨0, 0, 800, 600⟩).h = (Rect.mk 0 0 800 600).height :=
  (move_step_anchor_clamped ⟨0, 0, 800, 600⟩).2 (by decide) (by decide)

/-- Claim C8 counterexample: the bring-to-foreground step of the capture
positioning sequence in the office server performs no thread-input
attachment at all — its call trace contains no `AttachThreadInput` — so
the claim that this positioning step attempts the privileged escalation
path is false. -/
theorem office_foreground_no_escalation :
    WinCall.attachThreadInput ∉ officePositionCalls := by
  decide

/-- Claim C8 (amended): the privileged escalation (attaching the
requesting thread's input context to the target window's thread before the
foreground call) is attempted only by the browser server's
`bring_window_to_front`, which silently falls back to a plain best-effort
`SetForegroundWindow` when the escalation fails and reports failure by a
boolean rather than an exception; the office capture positioning's
foreground step is a plain best-effort call whose failure never changes
the capture outcome. -/
theorem foreground_escalation_spec (pat : List Char) (env : FgEnv)
    (pos : PositionEnv) (cenv : CaptureEnv) (w : Window) :
    (capture_window_screenshot
        ⟨pos.rectAfterRestore, pos.rectAfterMaximize, pos.rectFinal, true, pos.primary⟩ cenv =
      capture_window_screenshot
        ⟨pos.rectAfterRestore, pos.rectAfterMaximize, pos.rectFinal, false, pos.primary⟩ cenv) ∧
    WinCall.attachThreadInput ∉ officePositionCalls ∧
    (env.hasWin32 = true → (env.windows.filter (fgMatches pat)).head? = some w →
      env.preThrows = false → env.escalationThrows = false →
      env.foregroundThread ≠ env.targetThread w.hwnd →
      (bring_window_to_front pat env).1 = true ∧
      WinCall.attachThreadInput ∈ (bring_window_to_front pat env).2 ∧
      WinCall.setForegroundWindow ∈ (bring_window_to_front pat env).2) ∧
    (env.hasWin32 = true → (env.windows.filter (fgMatches pat)).head? = some w →
      env.preThrows = false → env.escalationThrows = true → env.fallbackThrows = false →
      (bring_window_to_front pat env).1 = true ∧
      WinCall.setForegroundWindow ∈ (bring_window_to_front pat env).2 ∧
      WinCall.attachThreadInput ∉ (bring_window_to_front pat env).2) ∧
    (env.hasWin32 = true → (env.windows.filter (fgMatches pat)).head? = some w →
      env.preThrows = false → env.escalationThrows = true → env.fallbackThrows = true →
      (bring_window_to_front pat env).1 = false) := by
  refine ⟨rfl, by decide, ?_, ?_, ?_⟩
  · intro h32 hw hpre hesc hth
    unfold bring_window_to_front
    rw [if_pos h32, hw]
    simp [hpre, hesc, hth]
  · intro h32 hw hpre hesc hfb
    unfold bring_window_to_front
    rw [if_pos h32, hw]
    simp [hpre, hesc, hfb]
  · intro h32 hw hpre hesc hfb
    unfold bring_window_to_front
    rw [if_pos h32, hw]
    simp [hpre, hesc, hfb]

/-- Claim C8 (amended) witness: in a healthy environment with the target
window owned by a different thread, `bring_window_to_front` attaches the
thread input, calls the foreground API, and reports success. -/
theorem foreground_escalation_spec_witness :
    (bring_window_to_front ['c'] sampleFgEnv).1 = true ∧
    WinCall.attachThreadInput ∈ (bring_window_to_front ['c'] sampleFgEnv).2 :=
  ⟨((foreground_escalation_spec ['c'] sampleFgEnv
        ⟨⟨0, 0, 0, 0⟩, ⟨0, 0, 1, 1⟩, ⟨0, 0, 1, 1⟩, false, ⟨0, 0, 1920, 1080⟩⟩
        sampleEnvMss ⟨2, true, ['c'], []⟩).2.2.1 rfl rfl rfl rfl (by decide)).1,
    ((foreground_escalation_spec ['c'] sampleFgEnv
        ⟨⟨0, 0, 0, 0⟩, ⟨0, 0, 1, 1⟩, ⟨0, 0, 1, 1⟩, false, ⟨0, 0, 1920, 1080⟩⟩
        sampleEnvMss ⟨2, true, ['c'], []⟩).2.2.1 rfl rfl rfl rfl (by decide)).2.1⟩

/-- Claim C9: with `full_page` set, `browser_screenshot` resizes the
session window to `max(scrollWidth, 1920) × max(scrollHeight, 1080)` —
at least 1920×1080 and at least the page's scroll extents — before the
screenshot is rasterized, and the resize is not undone: the returned
session state carries the new size, and a subsequent screenshot on that
state rasterizes at the same resized dimensions. -/
theorem full_page_resize_persists (s : BrowserSession) (rasterize : BrowserSession → Bytes) :
    browser_screenshot true (some s) rasterize =
      (some (rasterize
          (set_window_size s (max s.page.scrollWidth 1920) (max s.page.scrollHeight 1080))),
        some (set_window_size s (max s.page.scrollWidth 1920) (max s.page.scrollHeight 1080))) ∧
    1920 ≤ (set_window_size s (max s.page.scrollWidth 1920)
      (max s.page.scrollHeight 1080)).windowWidth ∧
    1080 ≤ (set_window_size s (max s.page.scrollWidth 1920)
      (max s.page.scrollHeight 1080)).windowHeight ∧
    s.page.scrollWidth ≤ (set_window_size s (max s.page.scrollWidth 1920)
      (max s.page.scrollHeight 1080)).windowWidth ∧
    s.page.scrollHeight ≤ (set_window_size s (max s.page.scrollWidth 1920)
      (max s.page.scrollHeight 1080)).windowHeight ∧
    browser_screenshot false (browser_screenshot true (some s) rasterize).2 rasterize =
      (some (rasterize
          (set_window_size s (max s.page.scrollWidth 1920) (max s.page.scrollHeight 1080))),
        some (set_window_size s (max s.page.scrollWidth 1920) (max s.page.scrollHeight 1080))) := by
  exact ⟨rfl, le_max_right _ _, le_max_right _ _, le_max_left _ _, le_max_left _ _, rfl⟩

/-- Claim C10: releasing a kind whose slot is empty is a no-op success
leaving the whole registry unchanged; consequently a release following a
successful release behaves exactly as a release on an empty slot; the
browser variant behaves the same. -/
theorem release_empty_noop (st : Registry) (save save2 : Bool)
    (sE qE sE2 qE2 : Except String Unit) (q : Except String Unit) :
    (st.get Kind.word = none →
      word_close st save sE qE = (get_success_response "Word closed", st)) ∧
    ((word_close st save sE qE).1 = get_success_response "Word closed" →
      word_close (word_close st save sE qE).2 save2 sE2 qE2 =
        (get_success_response "Word closed", (word_close st save sE qE).2)) ∧
    browser_close none q = (get_success_response "Browser closed", none) := by
  have hempty : ∀ (st0 : Registry) (sv : Bool) (a b : Except String Unit),
      st0.get Kind.word = none →
      word_close st0 sv a b = (get_success_response "Word closed", st0) := by
    intro st0 sv a b h0
    unfold word_close
    rw [h0]
  refine ⟨hempty st save sE qE, ?_, rfl⟩
  intro hs
  cases hc : st.get Kind.word with
  | none =>
    rw [hempty st save sE qE hc]
    exact hempty st save2 sE2 qE2 hc
  | some h0 =>
    cases hsv : (if save then sE else Except.ok ()) with
    | error e =>
      have hwc : word_close st save sE qE =
          (get_error_response "Failed to close Word" (some e), st) := by
        unfold word_close
        rw [hc, hsv]
      rw [hwc] at hs
      exact absurd hs (by simp [get_error_response, get_success_response])
    | ok u =>
      cases hq : qE with
      | error e =>
        have hwc : word_close st save sE (Except.error e) =
            (get_error_response "Failed to close Word" (some e), st) := by
          unfold word_close
          rw [hc, hsv]
        rw [hq, hwc] at hs
        exact absurd hs (by simp [get_error_response, get_success_response])
      | ok u2 =>
        have hwc : word_close st save sE (Except.ok u2) =
            (get_success_response "Word closed", st.set Kind.word none) := by
          unfold word_close
          rw [hc, hsv]
        rw [hwc]
        exact hempty _ save2 sE2 qE2 (Registry.get_set_same st Kind.word none)

/-- Claim C10 witness: closing Word with no handle held succeeds and leaves
the registry untouched even when the save and quit effects would fail; a
close following a successful close is the same no-op; closing the browser
with no driver is a no-op success. -/
theorem release_empty_noop_witness :
    word_close emptyRegistry true (Except.error "s") (Except.error "q") =
      (get_success_response "Word closed", emptyRegistry) ∧
    word_close (word_close wordRegistry false (Except.ok ()) (Except.ok ())).2
        false (Except.ok ()) (Except.ok ()) =
      (get_success_response "Word closed",
        (word_close wordRegistry false (Except.ok ()) (Except.ok ())).2) ∧
    browser_close none (Except.error "x") = (get_success_response "Browser closed", none) :=
  ⟨(release_empty_noop emptyRegistry true true (Except.error "s") (Except.error "q")
      (Except.ok ()) (Except.ok ()) (Except.error "x")).1 rfl,
    (release_empty_noop wordRegistry false false (Except.ok ()) (Except.ok ())
      (Except.ok ()) (Except.ok ()) (Except.error "x")).2.1 rfl,
    (release_empty_noop wordRegistry false false (Except.ok ()) (Except.ok ())
      (Except.ok ()) (Except.ok ()) (Except.error "x")).2.2⟩

end OpenCode
